import Mathlib

/-!
Shallow embedding of the screenshot-capture pipeline in
`src/search_screenshot.js` (the compiled twin of the TypeScript source):
query extraction from CSV rows, column resolution, the per-query retry
loop of `processQuery`, the batch scheduler and session lifecycle of
`generateSearchScreenshots`, the compare-mode orchestration of
`runCompareMode`, and the filename builder.

Machine integers do not occur on the modelled paths; JavaScript strings
are modelled as Lean `String`/`List Char`, and the effectful parts
(page navigation, waits, screenshots) are modelled by an environment
oracle that tells each attempt of each query how it ends.
-/

namespace SearchScreenshot

/-- The search engines accepted by the `--engine` CLI option. -/
inductive Engine
  | google
  | bing
  | duckduckgo
  | yahoo
deriving DecidableEq

/-- The string form of an engine, as interpolated into directory and file names. -/
def engineName : Engine → String
  | .google => "google"
  | .bing => "bing"
  | .duckduckgo => "duckduckgo"
  | .yahoo => "yahoo"

/-- The `--mode` CLI option. -/
inductive Mode
  | mobile
  | desktop
deriving DecidableEq

/-- `mode === 'mobile' ? 'mobile' : 'desktop'` (line 153 of the source). -/
def deviceNameOf : Mode → String
  | .mobile => "mobile"
  | .desktop => "desktop"

/-! ### JavaScript string helpers

`String.prototype.trim` removes whitespace from both ends of a string.
On the modelled code paths the only whitespace characters that can occur
are space, tab, newline and carriage return, so the model trims exactly
those. -/

/-- Whitespace as removed by the JavaScript `trim` on the modelled inputs. -/
def isJsSpace (c : Char) : Bool :=
  c == ' ' || c == '\t' || c == '\n' || c == '\r'

/-- `trim` on the character list of a string: drop whitespace from the
front, then from the back. -/
def jsTrimChars (l : List Char) : List Char :=
  (l.dropWhile isJsSpace).rdropWhile isJsSpace

/-- Model of JavaScript `s.trim()`. -/
def jsTrim (s : String) : String :=
  String.mk (jsTrimChars s.data)

/-- Model of JavaScript `s.toLowerCase()` on ASCII data: lower-case each
character. -/
def lowerStr (s : String) : String :=
  String.mk (s.data.map Char.toLower)

/-- `needle.isPrefixOf hay` at some position, i.e. the JavaScript
`hay.includes(needle)` substring test. -/
def containsSub (needle : List Char) : List Char → Bool
  | [] => needle.isEmpty
  | c :: rest => needle.isPrefixOf (c :: rest) || containsSub needle rest

/-- Model of JavaScript `Number(s)` restricted to optional-sign decimal
integer literals: `"12"` and `"-3"` parse, anything that is not such a
literal (for example a header name) is `NaN`, modelled as `none`.
The empty string is screened out by the caller before `Number` is
consulted, so its JavaScript value `0` never matters. -/
def jsNumber (s : String) : Option Int :=
  match s.data with
  | [] => none
  | '-' :: rest =>
      if rest ≠ [] ∧ rest.all Char.isDigit then
        some (-(Int.ofNat (decValue rest)))
      else none
  | l =>
      if l.all Char.isDigit then some (Int.ofNat (decValue l)) else none
where
  /-- Value of a list of decimal digits. -/
  decValue (l : List Char) : Nat :=
    l.foldl (fun acc c => acc * 10 + (c.toNat - 48)) 0

/-! ### Filename builder (`processQuery`, lines 218-222)

`const safeQuery = query.replace(/[^a-z0-9 _]/gi, '_').slice(0, 40).trim();`
`const filename = `...`${String(index + 1).padStart(3, '0')}_${engine}_${deviceName}_${safeQuery}.jpg`;`
-/

/-- A character matched by the kept class `[a-z0-9 _]` of the sanitizing
regex (with the `i` flag, so upper-case letters are kept as well). -/
def keepChar (c : Char) : Bool :=
  c.isAlpha || c.isDigit || c == ' ' || c == '_'

/-- One character of `query.replace(/[^a-z0-9 _]/gi, '_')`. -/
def replChar (c : Char) : Char :=
  if keepChar c then c else '_'

/-- `query.replace(/[^a-z0-9 _]/gi, '_').slice(0, 40).trim()`. -/
def safeQuery (q : String) : String :=
  jsTrim (String.mk ((q.data.map replChar).take 40))

/-- `String(n).padStart(3, '0')`. -/
def pad3 (n : Nat) : String :=
  String.mk (List.replicate (3 - (toString n).length) '0') ++ toString n

/-- The screenshot filename built by `processQuery`. -/
def buildFilename (index : Nat) (engine : Engine) (deviceName : String)
    (query : String) : String :=
  pad3 (index + 1) ++ "_" ++ engineName engine ++ "_" ++ deviceName ++ "_" ++
    safeQuery query ++ ".jpg"

/-- The filename formula exactly as claim C7 words it: sanitize, truncate
to 40 characters, append the extension - with no trimming step. Written
from the claim, to be compared with `buildFilename`. -/
def claimedFilenameC7 (index : Nat) (engine : Engine) (deviceName : String)
    (query : String) : String :=
  pad3 (index + 1) ++ "_" ++ engineName engine ++ "_" ++ deviceName ++ "_" ++
    String.mk ((query.data.map replChar).take 40) ++ ".jpg"

/-- The filename formula of the amended claim C7: sanitize, truncate to 40
characters, then strip surrounding whitespace, then append the extension. -/
def amendedFilenameC7 (index : Nat) (engine : Engine) (deviceName : String)
    (query : String) : String :=
  pad3 (index + 1) ++ "_" ++ engineName engine ++ "_" ++ deviceName ++ "_" ++
    jsTrim (String.mk ((query.data.map replChar).take 40)) ++ ".jpg"

/-! ### Column resolution (`generateSearchScreenshots`, lines 84-121) -/

/-- The default branch taken when no `--column` is given: look for a
header named `query`, else column 0. -/
def defaultQueryIdx (headers : List String) : Int :=
  match headers.findIdx? (fun h => lowerStr h == "query") with
  | some i => Int.ofNat i
  | none => 0

/-- Exact case-insensitive header match:
`h.toLowerCase() === column.toLowerCase()`. -/
def headerExact (h column : String) : Bool :=
  lowerStr h == lowerStr column

/-- Case-insensitive substring header match:
`h.toLowerCase().includes(column.toLowerCase())`. -/
def headerPartial (h column : String) : Bool :=
  containsSub (lowerStr column).data (lowerStr h).data

/-- Column resolution of `generateSearchScreenshots`: with a non-empty
`--column` value, a numeric literal is used directly as the index
(unchecked); otherwise the first exact case-insensitive header match,
else the first case-insensitive substring match, else column 0. With no
`--column` value (or the falsy empty string), a header named `query` is
looked up, else column 0. -/
def resolveColumn (column : Option String) (headers : List String) : Int :=
  match column with
  | none => defaultQueryIdx headers
  | some c =>
    if c == "" then defaultQueryIdx headers
    else
      match jsNumber c with
      | some n => n
      | none =>
        match headers.findIdx? (fun h => headerExact h c) with
        | some i => Int.ofNat i
        | none =>
          match headers.findIdx? (fun h => headerPartial h c) with
          | some i => Int.ofNat i
          | none => 0

/-! ### Query extraction (`generateSearchScreenshots`, lines 126-149) -/

/-- JavaScript indexing `cols[queryColIndex]`: `undefined` (`none`) when
the index is negative or past the end of the row. -/
def getCell (cols : List String) (i : Int) : Option String :=
  if 0 ≤ i then cols[i.toNat]? else none

/-- The second CSV pass: for each data row take the selected cell; if the
cell exists and trims to a non-empty string, contribute the trimmed
value, else contribute nothing
(`if (query?.trim()) queries.push(query.trim())`). -/
def extractQueries (rows : List (List String)) (i : Int) : List String :=
  rows.filterMap (fun cols =>
    match getCell cols i with
    | none => none
    | some q => if jsTrim q == "" then none else some (jsTrim q))

/-- Split a line on commas (the `csv-parser` default separator; the
modelled fragment is unquoted CSV). -/
def splitComma (s : String) : List String :=
  (s.data.foldr
    (fun c acc =>
      match acc with
      | [] => [[c]]
      | cur :: rest => if c == ',' then [] :: cur :: rest else (c :: cur) :: rest)
    [[]]).map String.mk

/-- The data rows seen by the second pass: every line after the header
line, split into cells. -/
def csvDataRows (lines : List String) : List (List String) :=
  (lines.drop 1).map splitComma

/-- End-to-end extraction from the lines of a CSV file. -/
def csvQueries (lines : List String) (i : Int) : List String :=
  extractQueries (csvDataRows lines) i

/-! ### The per-query retry loop (`processQuery`, lines 223-314)

```
let retries = 0;
const maxRetries = 2;
let success = false;
while (retries <= maxRetries && !success) {
  const page = yield context.newPage();   // OUTSIDE the try block
  try { ...navigate, waits, captcha check, screenshot...; success = true; }
  catch (err) { retries++; if (retries <= maxRetries) wait 1s; }
  finally { yield page.close(); }
}
```

The environment (browser, network, page content) is abstracted as an
oracle assigning each attempt index one of four fates. Every attempt
that is not cut short by an exception or a headless CAPTCHA retry sets
`success = true`, and each non-successful attempt increments `retries`
by exactly one, so at the start of an attempt `retries` equals the
number of attempts already made. -/

/-- How one attempt of the per-query loop ends, as decided by the
environment. -/
inductive AttemptEvent
  /-- `context.newPage()` throws. This call sits outside the `try`
  block, so the exception leaves `processQuery`. -/
  | pageOpenFail
  /-- Some awaited step inside the `try` block throws (navigation,
  a wait, the CAPTCHA probe, the screenshot). -/
  | stepThrows
  /-- The CAPTCHA heuristic fires on the loaded page. -/
  | captcha
  /-- The page loads with no CAPTCHA and no exception. -/
  | clean
deriving DecidableEq

/-- What one iteration of the retry loop did, read off from the code of
`processQuery`. -/
structure AttemptRecord where
  /-- The fate the environment dealt this attempt. -/
  event : AttemptEvent
  /-- Waited the configurable `delay * 1000` ms before capturing (line 280). -/
  preCaptureDelay : Bool
  /-- Waited the fixed 30 s for a human to solve a CAPTCHA (line 272). -/
  captchaManualWait : Bool
  /-- A screenshot file was written (line 282). -/
  screenshotWritten : Bool
  /-- Waited the 1 s backoff in the `catch` block (line 305). -/
  backoffWaited : Bool
  /-- The page was closed by the `finally` block (line 312). -/
  pageClosed : Bool
deriving DecidableEq

/-- How `processQuery` ends. -/
inductive Outcome
  /-- A screenshot was captured. -/
  | succeeded
  /-- The retry budget was exhausted; the failure was logged and the
  returned promise resolves normally. -/
  | failed
  /-- An exception escaped `processQuery` (only possible from
  `context.newPage()`, which is outside the `try`). -/
  | errored
deriving DecidableEq

/-- The observable result of one `processQuery` call. -/
structure RunResult where
  /-- Number of loop iterations entered. -/
  attempts : Nat
  outcome : Outcome
  /-- One record per iteration, in order. -/
  records : List AttemptRecord
deriving DecidableEq

/-- `const maxRetries = 2` (line 224). -/
def maxRetries : Nat := 2

/-- The retry loop from the iteration at which `retries = k`: the guard
`retries <= maxRetries` has already been consumed by the recursion when
`maxRetries < k`. `useChrome` is the flag as passed to `processQuery`
(it selects the manual-solve branch of the CAPTCHA check). -/
def processQueryFrom (ev : Nat → AttemptEvent) (useChrome : Bool) (k : Nat) :
    RunResult :=
  if h : maxRetries < k then
    { attempts := 0, outcome := .failed, records := [] }
  else
    match ev k with
    | .pageOpenFail =>
        { attempts := 1, outcome := .errored,
          records := [{ event := .pageOpenFail, preCaptureDelay := false,
                        captchaManualWait := false, screenshotWritten := false,
                        backoffWaited := false, pageClosed := false }] }
    | .clean =>
        { attempts := 1, outcome := .succeeded,
          records := [{ event := .clean, preCaptureDelay := true,
                        captchaManualWait := false, screenshotWritten := true,
                        backoffWaited := false, pageClosed := true }] }
    | .captcha =>
        if useChrome then
          { attempts := 1, outcome := .succeeded,
            records := [{ event := .captcha, preCaptureDelay := true,
                          captchaManualWait := true, screenshotWritten := true,
                          backoffWaited := false, pageClosed := true }] }
        else
          let rest := processQueryFrom ev useChrome (k + 1)
          { attempts := rest.attempts + 1, outcome := rest.outcome,
            records := { event := .captcha, preCaptureDelay := false,
                         captchaManualWait := false, screenshotWritten := false,
                         backoffWaited := false, pageClosed := true } :: rest.records }
    | .stepThrows =>
        let rest := processQueryFrom ev useChrome (k + 1)
        { attempts := rest.attempts + 1, outcome := rest.outcome,
          records := { event := .stepThrows, preCaptureDelay := false,
                       captchaManualWait := false, screenshotWritten := false,
                       backoffWaited := decide (k + 1 ≤ maxRetries),
                       pageClosed := true } :: rest.records }
termination_by maxRetries + 1 - k
decreasing_by
  all_goals exact Nat.sub_succ_lt_self _ _ (Nat.lt_succ_of_le (Nat.le_of_not_lt h))

/-- One `processQuery` call under environment oracle `ev`. -/
def processQueryRun (ev : Nat → AttemptEvent) (useChrome : Bool) : RunResult :=
  processQueryFrom ev useChrome 0

/-! ### Batch scheduler (`generateSearchScreenshots`, lines 200-207)

```
const batchSize = useChrome ? 1 : 3;
for (let i = 0; i < queries.length; i += batchSize) {
  const batch = queries.slice(i, i + batchSize);
  const batchPromises = batch.map((query, batchIndex) =>
    processQuery(query, i + batchIndex, ...));
  yield Promise.all(batchPromises);
}
```
-/

/-- `const batchSize = useChrome ? 1 : 3` (line 201). -/
def batchSize (useChrome : Bool) : Nat :=
  if useChrome then 1 else 3

/-- `const shouldUseChrome = useChrome && engine === 'google'` (line 156):
the session runs a visible, persistent-profile Chrome exactly when this
holds. -/
def shouldUseChrome (useChrome : Bool) (engine : Engine) : Bool :=
  useChrome && (engine == Engine.google)

/-- The batches of `(global sequence index, query)` tasks produced by the
scheduling loop, starting at offset `i`: each batch is
`queries.slice(i, i + bs)` paired by `batchIndex => i + batchIndex`. -/
def scheduleFrom (bs : Nat) : Nat → List String → List (List (Nat × String))
  | _, [] => []
  | i, q :: qs =>
      ((q :: qs.take (bs - 1)).enum.map (fun p => (i + p.1, p.2)))
        :: scheduleFrom bs (i + bs) (qs.drop (bs - 1))
termination_by _ l => l.length
decreasing_by
  simp only [List.length_drop, List.length_cons]
  exact Nat.lt_succ_of_le (Nat.sub_le _ _)

/-- All batches of a run. -/
def schedule (bs : Nat) (queries : List String) : List (List (Nat × String)) :=
  scheduleFrom bs 0 queries

/-! ### Session lifecycle (`generateSearchScreenshots`, lines 150-212)

The browser and context are created before the batch loop; after the
loop `context.close()` always runs, and `browser.close()` runs only
when `useChrome` is false (line 209: the browser is deliberately left
open when using the persistent context). An exception escaping a batch
(`Promise.all` rejecting, possible only through `context.newPage()`)
aborts the function before any teardown. -/

/-- The observable phases of one `generateSearchScreenshots` invocation. -/
inductive Phase
  /-- Browser launch and context creation (lines 150-199). -/
  | setup
  /-- One batch processed to completion; carries each task with its
  per-query result. -/
  | processing (results : List (Nat × String × RunResult))
  /-- `yield context.close()` (line 208). -/
  | closeContext
  /-- `yield browser.close()` (line 210). -/
  | closeBrowser
deriving DecidableEq

/-- Run the batch loop: batches in order, each batch fully resolved
before the next starts; a rejected task aborts the loop (and with it the
whole function) after its batch settles. Returns the processing phases
and whether the loop was aborted by a propagated exception. -/
def runBatchesTrace (ev : Nat → Nat → AttemptEvent) (useChrome : Bool) :
    List (List (Nat × String)) → List Phase × Bool
  | [] => ([], false)
  | b :: bs =>
      let results := b.map (fun t => (t.1, t.2, processQueryRun (ev t.1) useChrome))
      if results.any (fun r => r.2.2.outcome == Outcome.errored) then
        ([Phase.processing results], true)
      else
        let rest := runBatchesTrace ev useChrome bs
        (Phase.processing results :: rest.1, rest.2)

/-- The CLI arguments passed around by `generateSearchScreenshots` and
`runCompareMode`; fields not consulted by the modelled logic are carried
through untouched, as the spread `Object.assign({}, args, ...)` does. -/
structure Args where
  csvFile : String
  output : String
  column : Option String
  engine : Engine
  delay : Nat
  mode : Mode
  useChrome : Bool
  quality : Nat
deriving DecidableEq

/-- The phase trace of one `generateSearchScreenshots` invocation on the
extracted queries `qs`, under the per-query environment oracle
`ev : queryIndex → attemptIndex → AttemptEvent`. -/
def generateTrace (args : Args) (qs : List String)
    (ev : Nat → Nat → AttemptEvent) : List Phase :=
  let r := runBatchesTrace ev args.useChrome (schedule (batchSize args.useChrome) qs)
  Phase.setup ::
    (r.1 ++
      if r.2 then []
      else Phase.closeContext :: (if args.useChrome then [] else [Phase.closeBrowser]))

/-- The run directory name `` `${timestamp}--${engine}` `` (line 68). -/
def runDirName (timestamp : String) (engine : Engine) : String :=
  timestamp ++ "--" ++ engineName engine

/-- The last five characters of a string, in reverse order: an observer
that separates run-directory names of different engines no matter what
the timestamps are. -/
def revTake5 (s : String) : List Char :=
  s.data.reverse.take 5

/-! ### Compare mode (`runCompareMode`, lines 43-59)

```
const yahooArgs = { ...args, engine: 'yahoo', useChrome: false };
yield generateSearchScreenshots(yahooArgs);
const compareEngine = args.engine === 'yahoo' ? 'google' : args.engine;
const useChrome = compareEngine === 'google' ? args.useChrome : false;
const compareArgs = { ...args, engine: compareEngine, useChrome };
yield generateSearchScreenshots(compareArgs);
```
-/

/-- The two argument sets passed, in order, to the two sequential
`generateSearchScreenshots` calls of `runCompareMode` (the second call
is only started after the first one resolves). -/
def runCompareModePasses (args : Args) : List Args :=
  let yahooArgs := { args with engine := Engine.yahoo, useChrome := false }
  let compareEngine := if args.engine == Engine.yahoo then Engine.google else args.engine
  let useChrome := if compareEngine == Engine.google then args.useChrome else false
  let compareArgs := { args with engine := compareEngine, useChrome := useChrome }
  [yahooArgs, compareArgs]

/-- All per-query results that appear in the processing phases of a
trace, batch order preserved. -/
def processedTasks : List Phase → List (Nat × String × RunResult)
  | [] => []
  | Phase.processing rs :: ps => rs ++ processedTasks ps
  | Phase.setup :: ps => processedTasks ps
  | Phase.closeContext :: ps => processedTasks ps
  | Phase.closeBrowser :: ps => processedTasks ps

/-! ### Helper lemmas -/

/-- A prefix of a list whose head does not satisfy `p` is itself fixed by
`dropWhile p`. -/
theorem dropWhile_eq_self_of_prefix {p : Char → Bool} {l x : List Char}
    (h : l.dropWhile p = l) (hpre : x <+: l) : x.dropWhile p = x := by
  obtain ⟨t, rfl⟩ := hpre
  cases x with
  | nil => simp
  | cons b B =>
    simp only [List.cons_append] at h
    rw [List.dropWhile_cons] at h ⊢
    split at h
    · exfalso
      have hsub : (List.dropWhile p (B ++ t)).length < (b :: (B ++ t)).length :=
        Nat.lt_of_le_of_lt ((List.dropWhile_suffix p).sublist.length_le) (by simp)
      rw [h] at hsub
      simp at hsub
    · simp_all

/-- Trimming is idempotent. -/
theorem jsTrimChars_idem (l : List Char) :
    jsTrimChars (jsTrimChars l) = jsTrimChars l := by
  unfold jsTrimChars
  have hA : List.dropWhile isJsSpace (List.dropWhile isJsSpace l) =
      List.dropWhile isJsSpace l := List.dropWhile_idempotent _ _
  have hB : List.dropWhile isJsSpace
        ((List.dropWhile isJsSpace l).rdropWhile isJsSpace) =
      (List.dropWhile isJsSpace l).rdropWhile isJsSpace :=
    dropWhile_eq_self_of_prefix hA (List.rdropWhile_prefix _ _)
  rw [hB, List.rdropWhile_idempotent]

theorem jsTrim_idem (s : String) : jsTrim (jsTrim s) = jsTrim s := by
  simp [jsTrim, jsTrimChars_idem]

theorem jsTrimChars_length_le (l : List Char) :
    (jsTrimChars l).length ≤ l.length :=
  Nat.le_trans (List.rdropWhile_prefix _ _).sublist.length_le
    (List.dropWhile_suffix _).sublist.length_le

theorem jsTrimChars_subset {l : List Char} {c : Char}
    (h : c ∈ jsTrimChars l) : c ∈ l :=
  (List.dropWhile_suffix _).sublist.subset
    ((List.rdropWhile_prefix _ _).sublist.subset h)

/-- Every character produced by the sanitizing replacement is in the kept
class. -/
theorem keepChar_replChar (c : Char) : keepChar (replChar c) = true := by
  unfold replChar
  split
  · assumption
  · decide

/-! ### Claim C7: the filename builder -/

/-- C7 (counterexample): the claimed filename formula - sanitize, truncate
to 40 characters, append the extension, with no further step - disagrees
with the code for the query `"hi "`: the code trims the sanitized query
after truncating, producing `001_yahoo_mobile_hi.jpg` rather than the
claimed `001_yahoo_mobile_hi .jpg`. -/
theorem c7_filename_counterexample :
    buildFilename 0 Engine.yahoo "mobile" "hi " = "001_yahoo_mobile_hi.jpg" ∧
    claimedFilenameC7 0 Engine.yahoo "mobile" "hi " = "001_yahoo_mobile_hi .jpg" ∧
    buildFilename 0 Engine.yahoo "mobile" "hi " ≠
      claimedFilenameC7 0 Engine.yahoo "mobile" "hi " := by
  refine ⟨?_, ?_, ?_⟩ <;> decide

/-- C7 (amended): the filename builder is a deterministic function of
`(sequenceIndex, engine, device, query)` - calling it twice on identical
inputs yields the identical string - of the form
`{sequenceIndex+1 zero-padded to 3 digits}_{engine}_{deviceName}_{sanitizedQuery}.jpg`,
where every character of the query outside `[a-zA-Z0-9 _]` is replaced
with `_`, the result is truncated to at most 40 characters and then
stripped of surrounding whitespace, before the extension is appended.
Consequently the sanitized query is at most 40 characters long and
contains only characters from `[a-zA-Z0-9 _]`. -/
theorem c7_filename_builder :
    (∀ (index₁ index₂ : Nat) (e₁ e₂ : Engine) (d₁ d₂ q₁ q₂ : String),
      index₁ = index₂ → e₁ = e₂ → d₁ = d₂ → q₁ = q₂ →
        buildFilename index₁ e₁ d₁ q₁ = buildFilename index₂ e₂ d₂ q₂) ∧
    (∀ (index : Nat) (e : Engine) (d q : String),
      buildFilename index e d q = amendedFilenameC7 index e d q) ∧
    (∀ q : String, (safeQuery q).length ≤ 40) ∧
    (∀ (q : String), ∀ c ∈ (safeQuery q).data, keepChar c = true) := by
  refine ⟨?_, ?_, ?_, ?_⟩
  · rintro i _ e _ d _ q _ rfl rfl rfl rfl
    rfl
  · intro index e d q
    rfl
  · intro q
    show (jsTrimChars _).length ≤ 40
    exact Nat.le_trans (jsTrimChars_length_le _) (List.length_take_le 40 _)
  · intro q c hc
    have hc' : c ∈ (q.data.map replChar).take 40 := jsTrimChars_subset hc
    have hc'' : c ∈ q.data.map replChar := List.take_subset _ _ hc'
    obtain ⟨a, _, rfl⟩ := List.mem_map.mp hc''
    exact keepChar_replChar a

/-- C7 witness: the amended theorem applied at a concrete input whose
query contains characters outside the kept class and a trailing space. -/
theorem c7_filename_builder_witness :
    buildFilename 0 Engine.yahoo "mobile" "x" = buildFilename 0 Engine.yahoo "mobile" "x" ∧
    buildFilename 2 Engine.google "desktop" "a/b?c " =
      amendedFilenameC7 2 Engine.google "desktop" "a/b?c " ∧
    (safeQuery "a/b?c ").length ≤ 40 := by
  exact ⟨c7_filename_builder.1 0 0 Engine.yahoo Engine.yahoo "mobile" "mobile" "x" "x"
      rfl rfl rfl rfl,
    c7_filename_builder.2.1 2 Engine.google "desktop" "a/b?c ",
    c7_filename_builder.2.2.1 "a/b?c "⟩

/-! ### Claim C8: column resolution precedence -/

/-- C8: column resolution precedence. A column selector that parses as a
number is used directly as the index (numeric literal wins over name
lookup); otherwise the first exact case-insensitive header match wins,
else the first case-insensitive substring match, else column 0. For
headers `["notes","query","date"]`: `column="query"` resolves to 1,
`column="1"` resolves to 1, and `column="doesnotexist"` resolves to 0. -/
theorem c8_column_resolution :
    (∀ (c : String) (headers : List String) (n : Int),
      c ≠ "" → jsNumber c = some n → resolveColumn (some c) headers = n) ∧
    (∀ (c : String) (headers : List String) (i : Nat),
      c ≠ "" → jsNumber c = none →
      headers.findIdx? (fun h => headerExact h c) = some i →
        resolveColumn (some c) headers = Int.ofNat i) ∧
    (∀ (c : String) (headers : List String) (i : Nat),
      c ≠ "" → jsNumber c = none →
      headers.findIdx? (fun h => headerExact h c) = none →
      headers.findIdx? (fun h => headerPartial h c) = some i →
        resolveColumn (some c) headers = Int.ofNat i) ∧
    (∀ (c : String) (headers : List String),
      c ≠ "" → jsNumber c = none →
      headers.findIdx? (fun h => headerExact h c) = none →
      headers.findIdx? (fun h => headerPartial h c) = none →
        resolveColumn (some c) headers = 0) ∧
    resolveColumn (some "query") ["notes", "query", "date"] = 1 ∧
    resolveColumn (some "1") ["notes", "query", "date"] = 1 ∧
    resolveColumn (some "doesnotexist") ["notes", "query", "date"] = 0 := by
  refine ⟨?_, ?_, ?_, ?_, ?_, ?_, ?_⟩
  · intro c headers n hne hnum
    simp [resolveColumn, beq_iff_eq, hne, hnum]
  · intro c headers i hne hnum hex
    simp [resolveColumn, beq_iff_eq, hne, hnum, hex]
  · intro c headers i hne hnum hex hpart
    simp [resolveColumn, beq_iff_eq, hne, hnum, hex, hpart]
  · intro c headers hne hnum hex hpart
    simp [resolveColumn, beq_iff_eq, hne, hnum, hex, hpart]
  · decide
  · decide
  · decide

/-- C8 witness: the precedence branches applied at concrete inputs - a
numeric selector ignores the header list, an exact match beats a partial
one, and an unmatched name falls back to column 0. -/
theorem c8_column_resolution_witness :
    resolveColumn (some "2") ["alpha", "beta"] = 2 ∧
    resolveColumn (some "BETA") ["alpha", "beta"] = 1 ∧
    resolveColumn (some "et") ["alpha", "beta"] = 1 ∧
    resolveColumn (some "zzz") ["alpha", "beta"] = 0 := by
  refine ⟨?_, ?_, ?_, ?_⟩
  · exact c8_column_resolution.1 "2" ["alpha", "beta"] 2 (by decide) (by decide)
  · exact c8_column_resolution.2.1 "BETA" ["alpha", "beta"] 1 (by decide) (by decide)
      (by decide)
  · exact c8_column_resolution.2.2.1 "et" ["alpha", "beta"] 1 (by decide) (by decide)
      (by decide) (by decide)
  · exact c8_column_resolution.2.2.2.1 "zzz" ["alpha", "beta"] (by decide) (by decide)
      (by decide) (by decide)

/-! ### Claim C9: query extraction -/

/-- C9: query extraction yields an ordered sequence of trimmed, non-empty
strings in input-row order. A CSV with fewer than 2 lines (silently)
yields the empty sequence; a row whose selected cell is blank after
trimming contributes nothing and the surrounding rows are unaffected;
a non-blank row contributes exactly its trimmed cell at its position, so
duplicates pass through undeduplicated. -/
theorem c9_query_extraction :
    (∀ (lines : List String) (i : Int), lines.length < 2 → csvQueries lines i = []) ∧
    (∀ (rows : List (List String)) (i : Int) (q : String),
      q ∈ extractQueries rows i → jsTrim q = q ∧ q ≠ "") ∧
    (∀ (rows₁ rows₂ : List (List String)) (cols : List String) (i : Int),
      (∀ c, getCell cols i = some c → jsTrim c = "") →
        extractQueries (rows₁ ++ cols :: rows₂) i =
          extractQueries rows₁ i ++ extractQueries rows₂ i) ∧
    (∀ (rows : List (List String)) (cols : List String) (i : Int) (c : String),
      getCell cols i = some c → jsTrim c ≠ "" →
        extractQueries (cols :: rows) i = jsTrim c :: extractQueries rows i) := by
  refine ⟨?_, ?_, ?_, ?_⟩
  · intro lines i h
    match lines with
    | [] => rfl
    | [_] => rfl
    | _ :: _ :: t => simp only [List.length_cons] at h; omega
  · intro rows i q hq
    obtain ⟨cols, _, hf⟩ := List.mem_filterMap.mp hq
    revert hf
    cases getCell cols i with
    | none => intro hf; cases hf
    | some c =>
      simp only []
      split
      · intro hf; cases hf
      · intro hf
        obtain rfl : jsTrim c = q := Option.some_injective _ hf
        refine ⟨jsTrim_idem c, ?_⟩
        intro hemp
        simp_all
  · intro rows₁ rows₂ cols i hblank
    unfold extractQueries
    rw [List.filterMap_append, List.filterMap_cons]
    cases hcell : getCell cols i with
    | none => simp
    | some c =>
      have := hblank c hcell
      simp [this]
  · intro rows cols i c hcell hne
    unfold extractQueries
    rw [List.filterMap_cons, hcell]
    simp [hne]

/-- C9 witness: the extraction facts applied at concrete inputs - a
single-line CSV yields no queries, a padded cell comes out trimmed and
non-empty, a blank row in the middle is skipped silently, and a
duplicate query passes through twice. -/
theorem c9_query_extraction_witness :
    csvQueries ["query,date"] 0 = [] ∧
    (jsTrim " foo " = " foo " → False) ∧
    (jsTrim "foo" = "foo" ∧ "foo" ≠ "") ∧
    extractQueries ([["a"]] ++ [" "] :: [["b"]]) 0 =
      extractQueries [["a"]] 0 ++ extractQueries [["b"]] 0 ∧
    extractQueries [["dup"], ["dup"]] 0 = jsTrim "dup" :: extractQueries [["dup"]] 0 := by
  refine ⟨?_, ?_, ?_, ?_, ?_⟩
  · exact c9_query_extraction.1 ["query,date"] 0 (by decide)
  · intro h
    exact absurd h (by decide)
  · exact c9_query_extraction.2.1 [["x", " foo "]] 1 "foo" (by decide)
  · refine c9_query_extraction.2.2.1 [["a"]] [["b"]] [" "] 0 ?_
    intro c hc
    have h0 : getCell [" "] 0 = some " " := by decide
    rw [h0] at hc
    injection hc with hc
    rw [← hc]
    decide
  · exact c9_query_extraction.2.2.2 [["dup"]] ["dup"] 0 "dup" (by decide) (by decide)

/-! ### Claim C10: out-of-range numeric column selectors -/

/-- C10: a numeric column selector is used directly as the index with no
bounds checking (the header list plays no part in its resolution), and
when the index is negative or at least the width of every data row, each
selected cell is `undefined`, so extraction yields the empty sequence
with no error and no fallback to column 0. -/
theorem c10_unchecked_numeric_index :
    (∀ (c : String) (headers : List String) (n : Int),
      c ≠ "" → jsNumber c = some n → resolveColumn (some c) headers = n) ∧
    (∀ (rows : List (List String)) (i : Int),
      (∀ cols ∈ rows, i < 0 ∨ (cols.length : Int) ≤ i) →
        extractQueries rows i = []) := by
  constructor
  · intro c headers n hne hnum
    simp [resolveColumn, beq_iff_eq, hne, hnum]
  · intro rows i h
    unfold extractQueries
    rw [List.filterMap_eq_nil_iff]
    intro cols hc
    rcases h cols hc with hneg | hlen
    · simp [getCell, Int.not_le.mpr hneg]
    · by_cases h0 : (0 : Int) ≤ i
      · have hlen' : cols.length ≤ i.toNat := by omega
        simp [getCell, h0, List.getElem?_eq_none hlen']
      · simp [getCell, h0]

/-- C10 witness: with 3 headers, the numeric selector `"5"` resolves to
index 5 (no bounds check), and extraction over rows of width at most 2
yields the empty sequence. -/
theorem c10_unchecked_numeric_index_witness :
    resolveColumn (some "5") ["notes", "query", "date"] = 5 ∧
    extractQueries [["x", "y"], ["z"]] 5 = [] := by
  exact ⟨c10_unchecked_numeric_index.1 "5" ["notes", "query", "date"] 5
      (by decide) (by decide),
    c10_unchecked_numeric_index.2 [["x", "y"], ["z"]] 5 (by decide)⟩

/-! ### Lemmas about the retry loop: one-step unfolding equations -/

/-- When `retries` already exceeds `maxRetries` the loop body never runs. -/
theorem processQueryFrom_exit {ev : Nat → AttemptEvent} {uc : Bool} {k : Nat}
    (hk : maxRetries < k) :
    processQueryFrom ev uc k = { attempts := 0, outcome := .failed, records := [] } := by
  rw [processQueryFrom.eq_def]
  simp [hk]

/-- A failing `context.newPage()` ends the loop with a propagated
exception: the page is never opened, nothing is closed. -/
theorem processQueryFrom_pageOpenFail {ev : Nat → AttemptEvent} {uc : Bool} {k : Nat}
    (hk : ¬ maxRetries < k) (hev : ev k = AttemptEvent.pageOpenFail) :
    processQueryFrom ev uc k =
      { attempts := 1, outcome := .errored,
        records := [{ event := .pageOpenFail, preCaptureDelay := false,
                      captchaManualWait := false, screenshotWritten := false,
                      backoffWaited := false, pageClosed := false }] } := by
  rw [processQueryFrom.eq_def]
  simp [hk, hev]

/-- A clean attempt waits the pre-capture delay, writes the screenshot,
closes the page and ends the loop successfully. -/
theorem processQueryFrom_clean {ev : Nat → AttemptEvent} {uc : Bool} {k : Nat}
    (hk : ¬ maxRetries < k) (hev : ev k = AttemptEvent.clean) :
    processQueryFrom ev uc k =
      { attempts := 1, outcome := .succeeded,
        records := [{ event := .clean, preCaptureDelay := true,
                      captchaManualWait := false, screenshotWritten := true,
                      backoffWaited := false, pageClosed := true }] } := by
  rw [processQueryFrom.eq_def]
  simp [hk, hev]

/-- A CAPTCHA in visible-Chrome mode waits 30 s for a manual solve and
then captures anyway. -/
theorem processQueryFrom_captcha_chrome {ev : Nat → AttemptEvent} {uc : Bool} {k : Nat}
    (hk : ¬ maxRetries < k) (hev : ev k = AttemptEvent.captcha) (huc : uc = true) :
    processQueryFrom ev uc k =
      { attempts := 1, outcome := .succeeded,
        records := [{ event := .captcha, preCaptureDelay := true,
                      captchaManualWait := true, screenshotWritten := true,
                      backoffWaited := false, pageClosed := true }] } := by
  rw [processQueryFrom.eq_def]
  simp [hk, hev, huc]

/-- A CAPTCHA in headless mode abandons the attempt - no screenshot, no
pre-capture delay, no backoff - closes the page and loops back with the
retry counter incremented. -/
theorem processQueryFrom_captcha_headless {ev : Nat → AttemptEvent} {uc : Bool} {k : Nat}
    (hk : ¬ maxRetries < k) (hev : ev k = AttemptEvent.captcha) (huc : uc = false) :
    processQueryFrom ev uc k =
      { attempts := (processQueryFrom ev uc (k + 1)).attempts + 1,
        outcome := (processQueryFrom ev uc (k + 1)).outcome,
        records := { event := .captcha, preCaptureDelay := false,
                     captchaManualWait := false, screenshotWritten := false,
                     backoffWaited := false, pageClosed := true }
          :: (processQueryFrom ev uc (k + 1)).records } := by
  rw [processQueryFrom.eq_def]
  simp [hk, hev, huc]

/-- An exception inside the `try` block is caught: the page is closed,
the retry counter incremented, and the 1 s backoff waited exactly when
retries remain. -/
theorem processQueryFrom_stepThrows {ev : Nat → AttemptEvent} {uc : Bool} {k : Nat}
    (hk : ¬ maxRetries < k) (hev : ev k = AttemptEvent.stepThrows) :
    processQueryFrom ev uc k =
      { attempts := (processQueryFrom ev uc (k + 1)).attempts + 1,
        outcome := (processQueryFrom ev uc (k + 1)).outcome,
        records := { event := .stepThrows, preCaptureDelay := false,
                     captchaManualWait := false, screenshotWritten := false,
                     backoffWaited := decide (k + 1 ≤ maxRetries), pageClosed := true }
          :: (processQueryFrom ev uc (k + 1)).records } := by
  rw [processQueryFrom.eq_def]
  simp [hk, hev]

/-- The loop makes at most `maxRetries + 1 - k` further attempts. -/
theorem processQueryFrom_attempts_le (ev : Nat → AttemptEvent) (uc : Bool) :
    ∀ (n k : Nat), maxRetries + 1 - k ≤ n →
      (processQueryFrom ev uc k).attempts ≤ maxRetries + 1 - k := by
  intro n
  induction n with
  | zero =>
    intro k h
    rw [processQueryFrom_exit (by omega)]
    simp
  | succ n ih =>
    intro k h
    by_cases hk : maxRetries < k
    · rw [processQueryFrom_exit hk]
      simp
    · have hrec := ih (k + 1) (by omega)
      cases hev : ev k with
      | pageOpenFail => rw [processQueryFrom_pageOpenFail hk hev]; simp; omega
      | clean => rw [processQueryFrom_clean hk hev]; simp; omega
      | captcha =>
        rcases Bool.eq_false_or_eq_true uc with huc | huc
        · rw [processQueryFrom_captcha_chrome hk hev huc]; simp; omega
        · rw [processQueryFrom_captcha_headless hk hev huc]; simp; omega
      | stepThrows => rw [processQueryFrom_stepThrows hk hev]; simp; omega

/-- While the guard holds, at least one attempt is made. -/
theorem processQueryFrom_attempts_pos (ev : Nat → AttemptEvent) (uc : Bool)
    (k : Nat) (hk' : k ≤ maxRetries) :
    1 ≤ (processQueryFrom ev uc k).attempts := by
  have hk : ¬ maxRetries < k := by omega
  cases hev : ev k with
  | pageOpenFail => rw [processQueryFrom_pageOpenFail hk hev]
  | clean => rw [processQueryFrom_clean hk hev]
  | captcha =>
    rcases Bool.eq_false_or_eq_true uc with huc | huc
    · rw [processQueryFrom_captcha_chrome hk hev huc]
    · rw [processQueryFrom_captcha_headless hk hev huc]; simp
  | stepThrows => rw [processQueryFrom_stepThrows hk hev]; simp

/-- Records and attempts agree: one record per loop iteration. -/
theorem processQueryFrom_records_length (ev : Nat → AttemptEvent) (uc : Bool) :
    ∀ (n k : Nat), maxRetries + 1 - k ≤ n →
      (processQueryFrom ev uc k).records.length = (processQueryFrom ev uc k).attempts := by
  intro n
  induction n with
  | zero =>
    intro k h
    rw [processQueryFrom_exit (by omega)]
    rfl
  | succ n ih =>
    intro k h
    by_cases hk : maxRetries < k
    · rw [processQueryFrom_exit hk]
      rfl
    · have hrec := ih (k + 1) (by omega)
      cases hev : ev k with
      | pageOpenFail => rw [processQueryFrom_pageOpenFail hk hev]; rfl
      | clean => rw [processQueryFrom_clean hk hev]; rfl
      | captcha =>
        rcases Bool.eq_false_or_eq_true uc with huc | huc
        · rw [processQueryFrom_captcha_chrome hk hev huc]; rfl
        · rw [processQueryFrom_captcha_headless hk hev huc]
          simp only [List.length_cons]
          omega
      | stepThrows =>
        rw [processQueryFrom_stepThrows hk hev]
        simp only [List.length_cons]
        omega

/-- If every attempt throws, the loop runs through the whole budget and
ends in failure. -/
theorem processQueryFrom_all_throws (ev : Nat → AttemptEvent) (uc : Bool)
    (hev : ∀ a, ev a = AttemptEvent.stepThrows) :
    ∀ (n k : Nat), maxRetries + 1 - k = n →
      (processQueryFrom ev uc k).attempts = maxRetries + 1 - k ∧
      (processQueryFrom ev uc k).outcome = Outcome.failed := by
  intro n
  induction n with
  | zero =>
    intro k h
    rw [processQueryFrom_exit (by omega)]
    simp [h]
  | succ n ih =>
    intro k h
    have hk : ¬ maxRetries < k := by omega
    have hrec := ih (k + 1) (by omega)
    rw [processQueryFrom_stepThrows hk (hev k)]
    constructor
    · simp only []
      omega
    · exact hrec.2

/-- As long as `context.newPage()` never throws, no exception leaves the
loop. -/
theorem processQueryFrom_not_errored (ev : Nat → AttemptEvent) (uc : Bool)
    (hev : ∀ a, ev a ≠ AttemptEvent.pageOpenFail) :
    ∀ (n k : Nat), maxRetries + 1 - k ≤ n →
      (processQueryFrom ev uc k).outcome ≠ Outcome.errored := by
  intro n
  induction n with
  | zero =>
    intro k h
    rw [processQueryFrom_exit (by omega)]
    simp
  | succ n ih =>
    intro k h
    by_cases hk : maxRetries < k
    · rw [processQueryFrom_exit hk]
      simp
    · have hrec := ih (k + 1) (by omega)
      cases hevk : ev k with
      | pageOpenFail => exact absurd hevk (hev k)
      | clean => rw [processQueryFrom_clean hk hevk]; simp
      | captcha =>
        rcases Bool.eq_false_or_eq_true uc with huc | huc
        · rw [processQueryFrom_captcha_chrome hk hevk huc]; simp
        · rw [processQueryFrom_captcha_headless hk hevk huc]; exact hrec
      | stepThrows => rw [processQueryFrom_stepThrows hk hevk]; exact hrec

/-- Per-record specification of the loop: a headless CAPTCHA record
carries no screenshot, no delay and no backoff and (when retries remain)
is followed by a further attempt; a caught-exception record waits the
1 s backoff exactly when retries remain. -/
theorem processQueryFrom_record_spec (ev : Nat → AttemptEvent) (uc : Bool) :
    ∀ (n k : Nat), maxRetries + 1 - k ≤ n →
    ∀ (a : Nat) (rec : AttemptRecord),
      (processQueryFrom ev uc k).records[a]? = some rec →
      (uc = false → rec.event = AttemptEvent.captcha →
        rec = { event := .captcha, preCaptureDelay := false,
                captchaManualWait := false, screenshotWritten := false,
                backoffWaited := false, pageClosed := true } ∧
        (k + a < maxRetries →
          a + 1 < (processQueryFrom ev uc k).records.length)) ∧
      (rec.event = AttemptEvent.stepThrows →
        rec = { event := .stepThrows, preCaptureDelay := false,
                captchaManualWait := false, screenshotWritten := false,
                backoffWaited := decide (k + a + 1 ≤ maxRetries),
                pageClosed := true }) := by
  intro n
  induction n with
  | zero =>
    intro k h a rec hrec
    rw [processQueryFrom_exit (by omega)] at hrec
    simp at hrec
  | succ n ih =>
    intro k h a rec hrec
    by_cases hk : maxRetries < k
    · rw [processQueryFrom_exit hk] at hrec
      simp at hrec
    · cases hev : ev k with
      | pageOpenFail =>
        rw [processQueryFrom_pageOpenFail hk hev] at hrec
        dsimp only at hrec
        cases a with
        | zero =>
          simp only [List.getElem?_cons_zero] at hrec
          injection hrec with hrec
          subst hrec
          exact ⟨fun _ hcap => (by cases hcap), fun hthr => (by cases hthr)⟩
        | succ a' =>
          simp at hrec
      | clean =>
        rw [processQueryFrom_clean hk hev] at hrec
        dsimp only at hrec
        cases a with
        | zero =>
          simp only [List.getElem?_cons_zero] at hrec
          injection hrec with hrec
          subst hrec
          exact ⟨fun _ hcap => (by cases hcap), fun hthr => (by cases hthr)⟩
        | succ a' =>
          simp at hrec
      | captcha =>
        rcases Bool.eq_false_or_eq_true uc with huc | huc
        · rw [processQueryFrom_captcha_chrome hk hev huc] at hrec
          dsimp only at hrec
          cases a with
          | zero =>
            simp only [List.getElem?_cons_zero] at hrec
            injection hrec with hrec
            subst hrec
            refine ⟨fun huc' _ => ?_, fun hthr => (by cases hthr)⟩
            rw [huc] at huc'
            cases huc'
          | succ a' =>
            simp at hrec
        · rw [processQueryFrom_captcha_headless hk hev huc] at hrec ⊢
          dsimp only at hrec ⊢
          cases a with
          | zero =>
            simp only [List.getElem?_cons_zero] at hrec
            injection hrec with hrec
            subst hrec
            refine ⟨fun _ _ => ⟨rfl, ?_⟩, fun hthr => (by cases hthr)⟩
            intro hlt
            have h1 : k + 1 ≤ maxRetries := by omega
            have hlen := processQueryFrom_records_length ev uc n (k + 1) (by omega)
            have hpos := processQueryFrom_attempts_pos ev uc (k + 1) h1
            simp only [List.length_cons]
            omega
          | succ a' =>
            simp only [List.getElem?_cons_succ] at hrec
            have hih := ih (k + 1) (by omega) a' rec hrec
            constructor
            · intro huc' hcap
              obtain ⟨hr, hlen⟩ := hih.1 huc' hcap
              refine ⟨hr, ?_⟩
              intro hlt
              have := hlen (by omega)
              simp only [List.length_cons]
              omega
            · intro hthr
              have := hih.2 hthr
              rw [this]
              simp only [show k + 1 + a' = k + (a' + 1) from by omega]
      | stepThrows =>
        rw [processQueryFrom_stepThrows hk hev] at hrec ⊢
        dsimp only at hrec ⊢
        cases a with
        | zero =>
          simp only [List.getElem?_cons_zero] at hrec
          injection hrec with hrec
          subst hrec
          refine ⟨fun _ hcap => (by cases hcap), fun _ => ?_⟩
          simp only [show k + 0 + 1 = k + 1 from by omega]
        | succ a' =>
          simp only [List.getElem?_cons_succ] at hrec
          have hih := ih (k + 1) (by omega) a' rec hrec
          constructor
          · intro huc' hcap
            obtain ⟨hr, hlen⟩ := hih.1 huc' hcap
            refine ⟨hr, ?_⟩
            intro hlt
            have := hlen (by omega)
            simp only [List.length_cons]
            omega
          · intro hthr
            have := hih.2 hthr
            rw [this]
            simp only [show k + 1 + a' = k + (a' + 1) from by omega]

/-! ### Claim C1: retry budget -/

/-- C1 (counterexample): the claim promises that a query whose every
attempt throws is retried exactly `maxRetries = 2` additional times
before being recorded as failed. But an attempt can throw at the
page-open step - `context.newPage()`, line 227, outside the `try` block
- and a query whose every attempt throws there makes exactly one
attempt, is retried zero times, and is never recorded as failed: the
exception propagates and the run aborts. -/
theorem c1_retry_budget_counterexample :
    (processQueryRun (fun _ => AttemptEvent.pageOpenFail) false).attempts = 1 ∧
    (processQueryRun (fun _ => AttemptEvent.pageOpenFail) false).outcome =
      Outcome.errored ∧
    (processQueryRun (fun _ => AttemptEvent.pageOpenFail) false).outcome ≠
      Outcome.failed := by
  refine ⟨?_, ?_, ?_⟩ <;> simp [processQueryRun, processQueryFrom, maxRetries]

/-- C1 (amended): the per-query attempt loop terminates after at most
`maxRetries + 1 = 3` attempts, and the number of attempts made is always
in `[1, maxRetries + 1]` (it can never be retried indefinitely:
`processQueryRun` is a total function of the environment oracle). A
query whose every attempt throws inside the `try` block (navigation,
waits, CAPTCHA check, screenshot) is retried exactly `maxRetries = 2`
additional times - 3 attempts in all - before being recorded as failed.
A query whose attempt throws while opening the page, however, makes that
one attempt, is retried zero times, and is never recorded as failed: the
exception leaves `processQuery`. -/
theorem c1_retry_budget (ev : Nat → AttemptEvent) (uc : Bool) :
    1 ≤ (processQueryRun ev uc).attempts ∧
    (processQueryRun ev uc).attempts ≤ maxRetries + 1 ∧
    ((∀ a, ev a = AttemptEvent.stepThrows) →
      (processQueryRun ev uc).attempts = maxRetries + 1 ∧
      (processQueryRun ev uc).outcome = Outcome.failed) ∧
    (ev 0 = AttemptEvent.pageOpenFail →
      (processQueryRun ev uc).attempts = 1 ∧
      (processQueryRun ev uc).outcome = Outcome.errored) := by
  refine ⟨?_, ?_, ?_, ?_⟩
  · exact processQueryFrom_attempts_pos ev uc 0 (by omega)
  · have := processQueryFrom_attempts_le ev uc (maxRetries + 1) 0 (by omega)
    simpa using this
  · intro hev
    have := processQueryFrom_all_throws ev uc hev (maxRetries + 1) 0 (by omega)
    simpa using this
  · intro hev
    unfold processQueryRun
    rw [processQueryFrom_pageOpenFail (by omega) hev]
    exact ⟨rfl, rfl⟩

/-- C1 witness: under the oracle that makes every attempt throw inside
the `try`, a headless query makes exactly 3 attempts and ends failed;
under the oracle whose first page open throws, it makes 1 attempt and
the exception propagates. -/
theorem c1_retry_budget_witness :
    1 ≤ (processQueryRun (fun _ => AttemptEvent.stepThrows) false).attempts ∧
    (processQueryRun (fun _ => AttemptEvent.stepThrows) false).attempts ≤ maxRetries + 1 ∧
    ((processQueryRun (fun _ => AttemptEvent.stepThrows) false).attempts = maxRetries + 1 ∧
      (processQueryRun (fun _ => AttemptEvent.stepThrows) false).outcome = Outcome.failed) ∧
    ((processQueryRun (fun _ => AttemptEvent.pageOpenFail) false).attempts = 1 ∧
      (processQueryRun (fun _ => AttemptEvent.pageOpenFail) false).outcome = Outcome.errored) := by
  refine ⟨(c1_retry_budget _ false).1, (c1_retry_budget _ false).2.1, ?_, ?_⟩
  · exact (c1_retry_budget _ false).2.2.1 (fun _ => rfl)
  · exact (c1_retry_budget (fun _ => AttemptEvent.pageOpenFail) false).2.2.2 rfl

/-! ### Claim C6: headless CAPTCHA handling -/

/-- C6 (counterexample): the claim says a backoff of about one second
separates retries, but a CAPTCHA-triggered retry starts immediately: in a
headless run whose first attempt hits a CAPTCHA and whose second attempt
is clean, a retry occurs (2 attempts) yet no attempt waited any backoff. -/
theorem c6_captcha_retry_counterexample :
    (processQueryRun (fun a => if a = 0 then AttemptEvent.captcha else AttemptEvent.clean)
        false).attempts = 2 ∧
    (processQueryRun (fun a => if a = 0 then AttemptEvent.captcha else AttemptEvent.clean)
        false).records.map (fun r => r.backoffWaited) = [false, false] := by
  constructor <;> simp [processQueryRun, processQueryFrom, maxRetries]

/-- C6 (amended): when a CAPTCHA is detected on a headless-session
attempt, that attempt is abandoned - no screenshot written, no manual
wait, and the configurable pre-capture delay is not waited out - the page
is closed and, while retries remain, a fresh attempt (a fresh page)
follows. No backoff separates a CAPTCHA-triggered retry; the fixed ~1 s
backoff follows exactly the exception-triggered retries that still have
budget left. -/
theorem c6_captcha_retry (ev : Nat → AttemptEvent) (a : Nat) (rec : AttemptRecord)
    (hrec : (processQueryRun ev false).records[a]? = some rec) :
    (rec.event = AttemptEvent.captcha →
      rec.screenshotWritten = false ∧ rec.preCaptureDelay = false ∧
      rec.captchaManualWait = false ∧ rec.backoffWaited = false ∧
      rec.pageClosed = true ∧
      (a < maxRetries → a + 1 < (processQueryRun ev false).records.length)) ∧
    (rec.event = AttemptEvent.stepThrows →
      rec.backoffWaited = decide (a + 1 ≤ maxRetries)) := by
  have hspec := processQueryFrom_record_spec ev false (maxRetries + 1) 0 (by omega)
    a rec hrec
  constructor
  · intro hcap
    obtain ⟨hr, hlen⟩ := hspec.1 rfl hcap
    rw [hr]
    refine ⟨rfl, rfl, rfl, rfl, rfl, ?_⟩
    intro hlt
    exact hlen (by omega)
  · intro hthr
    have := hspec.2 hthr
    rw [this]
    simp

/-- C6 witness: the amended theorem applied to the concrete headless run
whose first attempt hits a CAPTCHA: that record wrote no screenshot,
waited neither the pre-capture delay nor any backoff, closed its page,
and a second attempt followed. -/
theorem c6_captcha_retry_witness :
    (({ event := .captcha, preCaptureDelay := false, captchaManualWait := false,
        screenshotWritten := false, backoffWaited := false,
        pageClosed := true } : AttemptRecord).event = AttemptEvent.captcha →
      ({ event := .captcha, preCaptureDelay := false, captchaManualWait := false,
         screenshotWritten := false, backoffWaited := false,
         pageClosed := true } : AttemptRecord).screenshotWritten = false ∧
      ({ event := .captcha, preCaptureDelay := false, captchaManualWait := false,
         screenshotWritten := false, backoffWaited := false,
         pageClosed := true } : AttemptRecord).preCaptureDelay = false ∧
      ({ event := .captcha, preCaptureDelay := false, captchaManualWait := false,
         screenshotWritten := false, backoffWaited := false,
         pageClosed := true } : AttemptRecord).captchaManualWait = false ∧
      ({ event := .captcha, preCaptureDelay := false, captchaManualWait := false,
         screenshotWritten := false, backoffWaited := false,
         pageClosed := true } : AttemptRecord).backoffWaited = false ∧
      ({ event := .captcha, preCaptureDelay := false, captchaManualWait := false,
         screenshotWritten := false, backoffWaited := false,
         pageClosed := true } : AttemptRecord).pageClosed = true ∧
      (0 < maxRetries →
        0 + 1 < (processQueryRun
          (fun a => if a = 0 then AttemptEvent.captcha else AttemptEvent.clean)
          false).records.length)) ∧
    (({ event := .captcha, preCaptureDelay := false, captchaManualWait := false,
        screenshotWritten := false, backoffWaited := false,
        pageClosed := true } : AttemptRecord).event = AttemptEvent.stepThrows →
      ({ event := .captcha, preCaptureDelay := false, captchaManualWait := false,
         screenshotWritten := false, backoffWaited := false,
         pageClosed := true } : AttemptRecord).backoffWaited =
        decide (0 + 1 ≤ maxRetries)) := by
  exact c6_captcha_retry
    (fun a => if a = 0 then AttemptEvent.captcha else AttemptEvent.clean) 0
    { event := .captcha, preCaptureDelay := false, captchaManualWait := false,
      screenshotWritten := false, backoffWaited := false, pageClosed := true }
    (by simp [processQueryRun, processQueryFrom, maxRetries])

/-! ### Lemmas about the batch scheduler -/

/-- Shifting an enumeration by a constant offset. -/
theorem enumFrom_map_shift {α : Type} (l : List α) (n m : Nat) :
    (List.enumFrom n l).map (fun p => (m + p.1, p.2)) = List.enumFrom (m + n) l := by
  induction l generalizing n with
  | nil => rfl
  | cons a l ih =>
    rw [List.enumFrom_cons, List.map_cons, ih (n + 1)]
    rfl

/-- The `batch.map((query, batchIndex) => ... i + batchIndex ...)` pairing
is exactly enumeration of the batch from offset `i`. -/
theorem enum_map_shift {α : Type} (l : List α) (m : Nat) :
    l.enum.map (fun p => (m + p.1, p.2)) = List.enumFrom m l := by
  rw [List.enum, enumFrom_map_shift]
  rfl

theorem scheduleFrom_nil (bs i : Nat) : scheduleFrom bs i [] = [] := by
  rw [scheduleFrom]

/-- Flattening the schedule recovers every query, paired with exactly its
own global sequence index, in order. -/
theorem scheduleFrom_flatten (bs : Nat) (hbs : 1 ≤ bs) :
    ∀ (n : Nat) (qs : List String), qs.length ≤ n → ∀ (i : Nat),
      (scheduleFrom bs i qs).flatten = List.enumFrom i qs := by
  intro n
  induction n with
  | zero =>
    intro qs h i
    match qs, h with
    | [], _ => rw [scheduleFrom_nil]; rfl
  | succ n ih =>
    intro qs h i
    match qs, h with
    | [], _ => rw [scheduleFrom_nil]; rfl
    | q :: qs', h =>
      have hlen : qs'.length ≤ n := by
        simp only [List.length_cons] at h
        omega
      rw [scheduleFrom]
      rw [List.flatten_cons,
        ih (qs'.drop (bs - 1)) (by simp only [List.length_drop]; omega) (i + bs),
        enum_map_shift]
      by_cases hc : qs'.length ≤ bs - 1
      · rw [List.take_of_length_le hc, List.drop_eq_nil_of_le hc]
        simp
      · conv_rhs => rw [show q :: qs' = (q :: qs'.take (bs - 1)) ++ qs'.drop (bs - 1) from by
          rw [List.cons_append, List.take_append_drop]]
        rw [List.enumFrom_append]
        congr 2
        simp only [List.length_cons, List.length_take]
        omega

/-- Every batch produced by the scheduler is non-empty and no longer than
the batch size. -/
theorem scheduleFrom_batch_length (bs : Nat) (hbs : 1 ≤ bs) :
    ∀ (n : Nat) (qs : List String), qs.length ≤ n → ∀ (i : Nat),
      ∀ b ∈ scheduleFrom bs i qs, 1 ≤ b.length ∧ b.length ≤ bs := by
  intro n
  induction n with
  | zero =>
    intro qs h i b hb
    match qs, h, hb with
    | [], _, hb => rw [scheduleFrom_nil] at hb; cases hb
  | succ n ih =>
    intro qs h i b hb
    match qs, h, hb with
    | [], _, hb => rw [scheduleFrom_nil] at hb; cases hb
    | q :: qs', h, hb =>
      have hlen : qs'.length ≤ n := by
        simp only [List.length_cons] at h
        omega
      rw [scheduleFrom] at hb
      rcases List.mem_cons.mp hb with rfl | hb'
      · constructor
        · simp [List.enum]
        · simp only [List.length_map, List.enum_length, List.length_cons, List.length_take]
          omega
      · exact ih (qs'.drop (bs - 1)) (by simp only [List.length_drop]; omega) (i + bs) b hb'

/-! ### Lemmas about the session trace -/

/-- Under an oracle that never makes `context.newPage()` throw, every
batch settles without a rejected task: the batch loop runs to the end. -/
theorem runBatchesTrace_no_error (ev : Nat → Nat → AttemptEvent) (uc : Bool)
    (h : ∀ i a, ev i a ≠ AttemptEvent.pageOpenFail) :
    ∀ bl : List (List (Nat × String)),
      runBatchesTrace ev uc bl =
        (bl.map (fun b => Phase.processing
          (b.map (fun t => (t.1, t.2, processQueryRun (ev t.1) uc)))), false) := by
  intro bl
  induction bl with
  | nil => rfl
  | cons b bs ih =>
    have hany : (b.map (fun t => (t.1, t.2, processQueryRun (ev t.1) uc))).any
        (fun r => r.2.2.outcome == Outcome.errored) = false := by
      rw [List.any_eq_false]
      intro r hr
      obtain ⟨t, _, rfl⟩ := List.mem_map.mp hr
      simp only [beq_iff_eq]
      exact processQueryFrom_not_errored (ev t.1) uc (h t.1) (maxRetries + 1) 0 (by omega)
    rw [runBatchesTrace]
    simp only [hany, Bool.false_eq_true, if_false, ih, List.map_cons]

/-- The shape of a completed run: setup, then one processing phase per
batch, then teardown (context close, and browser close exactly in
headless mode). -/
theorem generateTrace_no_error (args : Args) (qs : List String)
    (ev : Nat → Nat → AttemptEvent)
    (h : ∀ i a, ev i a ≠ AttemptEvent.pageOpenFail) :
    generateTrace args qs ev =
      Phase.setup ::
        ((schedule (batchSize args.useChrome) qs).map (fun b => Phase.processing
            (b.map (fun t => (t.1, t.2, processQueryRun (ev t.1) args.useChrome)))) ++
          (Phase.closeContext ::
            (if args.useChrome then [] else [Phase.closeBrowser]))) := by
  unfold generateTrace
  rw [runBatchesTrace_no_error ev args.useChrome h]
  rfl

theorem processedTasks_append (l₁ l₂ : List Phase) :
    processedTasks (l₁ ++ l₂) = processedTasks l₁ ++ processedTasks l₂ := by
  induction l₁ with
  | nil => rfl
  | cons p ps ih =>
    cases p <;> simp [processedTasks, ih]

/-- The processing phases of a completed run hold exactly the scheduled
tasks, flattened in order. -/
theorem processedTasks_batches (taskf : Nat × String → Nat × String × RunResult) :
    ∀ bl : List (List (Nat × String)),
      processedTasks (bl.map (fun b => Phase.processing (b.map taskf))) =
        bl.flatten.map taskf := by
  intro bl
  induction bl with
  | nil => rfl
  | cons b bs ih =>
    simp [processedTasks, ih]

/-! ### Claim C2: exception containment -/

/-- C2 (counterexample): an exception from `context.newPage()` - the
"page open" step, which the claim says is caught inside `processQuery` -
is not caught: it escapes `processQuery` (outcome `errored`), and in a
run whose page opens all fail the pipeline aborts before teardown, so
`context.close()` is never reached. -/
theorem c2_exception_containment_counterexample :
    (processQueryRun (fun _ => AttemptEvent.pageOpenFail) false).outcome =
      Outcome.errored ∧
    Phase.closeContext ∉
      generateTrace
        { csvFile := "q.csv", output := "out", column := none,
          engine := Engine.yahoo, delay := 1, mode := Mode.mobile,
          useChrome := false, quality := 80 }
        ["a"] (fun _ _ => AttemptEvent.pageOpenFail) := by
  constructor
  · simp [processQueryRun, processQueryFrom, maxRetries]
  · simp [generateTrace, runBatchesTrace, schedule, scheduleFrom, batchSize,
      processQueryRun, processQueryFrom, maxRetries, List.enum, List.enumFrom]

/-- C2 (amended): every exception raised inside an attempt after the page
is opened (navigation, waits, CAPTCHA probe, screenshot) is caught inside
`processQuery` and does not propagate: as long as `context.newPage()`
never throws, `processQuery` always resolves (to success or recorded
failure) and the pipeline processes every query of the run, in order,
regardless of per-query outcomes. An exception from `context.newPage()`
itself, however, escapes `processQuery` and aborts the batch and the
run. -/
theorem c2_exception_containment :
    (∀ (ev : Nat → AttemptEvent) (uc : Bool),
      (∀ a, ev a ≠ AttemptEvent.pageOpenFail) →
        (processQueryRun ev uc).outcome ≠ Outcome.errored) ∧
    (∀ (args : Args) (qs : List String) (ev : Nat → Nat → AttemptEvent),
      (∀ i a, ev i a ≠ AttemptEvent.pageOpenFail) →
        (processedTasks (generateTrace args qs ev)).map (fun t => t.2.1) = qs) := by
  constructor
  · intro ev uc hev
    exact processQueryFrom_not_errored ev uc hev (maxRetries + 1) 0 (by omega)
  · intro args qs ev h
    rw [generateTrace_no_error args qs ev h]
    rw [show (Phase.setup :: ((schedule (batchSize args.useChrome) qs).map (fun b =>
        Phase.processing (b.map (fun t => (t.1, t.2, processQueryRun (ev t.1)
          args.useChrome)))) ++ (Phase.closeContext ::
          (if args.useChrome then [] else [Phase.closeBrowser])))) =
      ([Phase.setup] ++ (schedule (batchSize args.useChrome) qs).map (fun b =>
        Phase.processing (b.map (fun t => (t.1, t.2, processQueryRun (ev t.1)
          args.useChrome)))) ++ ([Phase.closeContext] ++
          (if args.useChrome then [] else [Phase.closeBrowser]))) from by simp]
    rw [processedTasks_append, processedTasks_append, processedTasks_batches]
    have hbs : 1 ≤ batchSize args.useChrome := by
      cases hu : args.useChrome <;> simp [batchSize]
    rw [show processedTasks [Phase.setup] = [] from rfl]
    have htail : processedTasks
        ([Phase.closeContext] ++ (if args.useChrome then [] else [Phase.closeBrowser])) = [] := by
      cases hu : args.useChrome <;> simp [hu, processedTasks]
    rw [htail]
    rw [List.nil_append, List.append_nil]
    rw [show schedule (batchSize args.useChrome) qs = scheduleFrom (batchSize args.useChrome) 0 qs from rfl]
    rw [scheduleFrom_flatten (batchSize args.useChrome) hbs qs.length qs le_rfl 0]
    rw [List.map_map]
    exact List.enumFrom_map_snd 0 qs

/-- C2 witness: the amended theorem applied to a concrete
always-throwing-after-page-open oracle: the query resolves without a
propagated exception, and a two-query run still processes both queries. -/
theorem c2_exception_containment_witness :
    (processQueryRun (fun _ => AttemptEvent.stepThrows) false).outcome ≠
      Outcome.errored ∧
    (processedTasks (generateTrace
        { csvFile := "q.csv", output := "out", column := none,
          engine := Engine.yahoo, delay := 1, mode := Mode.mobile,
          useChrome := false, quality := 80 }
        ["a", "b"] (fun _ _ => AttemptEvent.stepThrows))).map (fun t => t.2.1) =
      ["a", "b"] := by
  constructor
  · exact c2_exception_containment.1 (fun _ => AttemptEvent.stepThrows) false
      (fun _ h => by cases h)
  · exact c2_exception_containment.2 _ ["a", "b"] (fun _ _ => AttemptEvent.stepThrows)
      (fun _ _ h => by cases h)

/-! ### Claim C3: batch scheduler -/

/-- C3 (counterexample): the claim ties batch size 1 to visible/persistent
mode, but the code keys it on the `--use-chrome` flag alone: with
`useChrome = true` and engine `yahoo` the session is headless
(`shouldUseChrome` is false), yet the batch size is 1 - not the claimed 3
- and a two-query run is split into two singleton batches. -/
theorem c3_batch_scheduler_counterexample :
    shouldUseChrome true Engine.yahoo = false ∧
    batchSize true = 1 ∧
    schedule (batchSize true) ["a", "b"] = [[(0, "a")], [(1, "b")]] := by
  refine ⟨rfl, rfl, ?_⟩
  simp [schedule, scheduleFrom, batchSize, List.enum, List.enumFrom]

/-- C3 (amended): the scheduler partitions the ordered query sequence
into batches of at most `batchSize useChrome` tasks (all batches
non-empty), awaiting full completion of each batch before the next (the
batch loop of `generateSearchScreenshots` awaits `Promise.all` per
iteration); the batch size is 1 whenever the `--use-chrome` flag is set -
whether or not the session actually runs visible/persistent Chrome - and
3 otherwise. Hence in visible/persistent mode (which requires the flag)
concurrent in-flight tasks never exceed 1, and they never exceed 3
overall; and flattening the schedule yields every query exactly once,
paired with its own global sequence index, in order. -/
theorem c3_batch_scheduler :
    (∀ (uc : Bool) (e : Engine), shouldUseChrome uc e = true → batchSize uc = 1) ∧
    (∀ uc : Bool, 1 ≤ batchSize uc ∧ batchSize uc ≤ 3) ∧
    (∀ (uc : Bool) (qs : List String), ∀ b ∈ schedule (batchSize uc) qs,
      1 ≤ b.length ∧ b.length ≤ batchSize uc) ∧
    (∀ (uc : Bool) (qs : List String),
      (schedule (batchSize uc) qs).flatten = qs.enum) := by
  refine ⟨?_, ?_, ?_, ?_⟩
  · intro uc e h
    obtain ⟨h1, _⟩ := Bool.and_eq_true_iff.mp h
    rw [h1]
    rfl
  · intro uc
    cases uc <;> simp [batchSize]
  · intro uc qs b hb
    have hbs : 1 ≤ batchSize uc := by cases uc <;> simp [batchSize]
    exact scheduleFrom_batch_length (batchSize uc) hbs qs.length qs le_rfl 0 b hb
  · intro uc qs
    have hbs : 1 ≤ batchSize uc := by cases uc <;> simp [batchSize]
    rw [show schedule (batchSize uc) qs = scheduleFrom (batchSize uc) 0 qs from rfl]
    rw [scheduleFrom_flatten (batchSize uc) hbs qs.length qs le_rfl 0]
    rfl

/-- C3 witness: the scheduler facts applied at concrete inputs - in
persistent mode (`useChrome` and google) the batch size is 1, and the
singleton batch of a one-query headless run has length between 1 and 3. -/
theorem c3_batch_scheduler_witness :
    batchSize true = 1 ∧
    (1 ≤ ([(0, "a")] : List (Nat × String)).length ∧
      ([(0, "a")] : List (Nat × String)).length ≤ batchSize false) := by
  constructor
  · exact c3_batch_scheduler.1 true Engine.google rfl
  · exact c3_batch_scheduler.2.2.1 false ["a"] [(0, "a")]
      (by simp [schedule, scheduleFrom, batchSize, List.enum, List.enumFrom])

/-! ### Claim C5: session lifecycle -/

/-- A phase found by index is a member of the trace. -/
theorem mem_of_getElemQ {α : Type} {l : List α} {n : Nat} {a : α}
    (h : l[n]? = some a) : a ∈ l := by
  obtain ⟨hn, rfl⟩ := List.getElem?_eq_some.mp h
  exact List.getElem_mem ..

/-- C5 (counterexample): with the `--use-chrome` flag set the claim fails
even on a run with no failures at all: the context is closed but
`browser.close()` is skipped (line 209, `if (!useChrome)`), so the
browser is not torn down at the end. -/
theorem c5_session_lifecycle_counterexample :
    Phase.closeContext ∈
      generateTrace
        { csvFile := "q.csv", output := "out", column := none,
          engine := Engine.yahoo, delay := 1, mode := Mode.mobile,
          useChrome := true, quality := 80 }
        ["a"] (fun _ _ => AttemptEvent.clean) ∧
    Phase.closeBrowser ∉
      generateTrace
        { csvFile := "q.csv", output := "out", column := none,
          engine := Engine.yahoo, delay := 1, mode := Mode.mobile,
          useChrome := true, quality := 80 }
        ["a"] (fun _ _ => AttemptEvent.clean) := by
  constructor <;>
    simp [generateTrace, runBatchesTrace, schedule, scheduleFrom, batchSize,
      processQueryRun, processQueryFrom, maxRetries, List.enum, List.enumFrom]

/-- C5 (amended): in every invocation whose page opens never throw, the
capture session is created exactly once, before any request is processed;
the browsing context is closed after every processing phase - no request
is processed at or after that teardown point - and this holds regardless
of the per-query outcomes; but the browser itself is closed only when the
`--use-chrome` flag is off (with the flag on, the browser is deliberately
left open). -/
theorem c5_session_lifecycle (args : Args) (qs : List String)
    (ev : Nat → Nat → AttemptEvent)
    (h : ∀ i a, ev i a ≠ AttemptEvent.pageOpenFail) :
    (generateTrace args qs ev).head? = some Phase.setup ∧
    (∀ i, (generateTrace args qs ev)[i]? = some Phase.setup → i = 0) ∧
    (∃ n, (generateTrace args qs ev)[n]? = some Phase.closeContext ∧
      ∀ (j : Nat) (rs : List (Nat × String × RunResult)),
        (generateTrace args qs ev)[j]? = some (Phase.processing rs) →
          0 < j ∧ j < n) ∧
    ((Phase.closeBrowser ∈ generateTrace args qs ev) ↔ args.useChrome = false) := by
  rw [generateTrace_no_error args qs ev h]
  set M := (schedule (batchSize args.useChrome) qs).map (fun b => Phase.processing
    (b.map (fun t => (t.1, t.2, processQueryRun (ev t.1) args.useChrome)))) with hM
  set tailB := (if args.useChrome then [] else [Phase.closeBrowser]) with htail
  have hMproc : ∀ x ∈ M, ∃ rs, x = Phase.processing rs := by
    intro x hx
    obtain ⟨b, _, rfl⟩ := List.mem_map.mp hx
    exact ⟨_, rfl⟩
  have htailB : ∀ x ∈ tailB, x = Phase.closeBrowser := by
    intro x hx
    rw [htail] at hx
    cases hu : args.useChrome <;> rw [hu] at hx <;> simp_all
  refine ⟨rfl, ?_, ?_, ?_⟩
  · intro i hi
    cases i with
    | zero => rfl
    | succ j =>
      exfalso
      simp only [List.getElem?_cons_succ] at hi
      have hmem := mem_of_getElemQ hi
      rcases List.mem_append.mp hmem with hmem | hmem
      · obtain ⟨rs, hrs⟩ := hMproc _ hmem
        cases hrs
      · rcases List.mem_cons.mp hmem with hmem | hmem
        · cases hmem
        · have := htailB _ hmem
          cases this
  · refine ⟨M.length + 1, ?_, ?_⟩
    · simp only [List.getElem?_cons_succ]
      rw [List.getElem?_append_right le_rfl]
      simp
    · intro j rs hj
      cases j with
      | zero =>
        simp only [List.getElem?_cons_zero] at hj
        cases hj
      | succ j' =>
        refine ⟨Nat.succ_pos _, ?_⟩
        simp only [List.getElem?_cons_succ] at hj
        by_cases hlt : j' < M.length
        · omega
        · exfalso
          rw [List.getElem?_append_right (by omega)] at hj
          have hmem := mem_of_getElemQ hj
          rcases List.mem_cons.mp hmem with hmem | hmem
          · cases hmem
          · have := htailB _ hmem
            cases this
  · constructor
    · intro hmem
      rcases List.mem_cons.mp hmem with hmem | hmem
      · cases hmem
      · rcases List.mem_append.mp hmem with hmem | hmem
        · obtain ⟨rs, hrs⟩ := hMproc _ hmem
          cases hrs
        · rcases List.mem_cons.mp hmem with hmem | hmem
          · cases hmem
          · rw [htail] at hmem
            cases hu : args.useChrome <;> rw [hu] at hmem <;> simp_all
    · intro hu
      rw [htail, hu]
      simp

/-- C5 witness: the amended theorem applied to a concrete clean headless
run of one query. -/
theorem c5_session_lifecycle_witness :
    (generateTrace
        { csvFile := "q.csv", output := "out", column := none,
          engine := Engine.yahoo, delay := 1, mode := Mode.mobile,
          useChrome := false, quality := 80 }
        ["a"] (fun _ _ => AttemptEvent.clean)).head? = some Phase.setup ∧
    (∀ i, (generateTrace
        { csvFile := "q.csv", output := "out", column := none,
          engine := Engine.yahoo, delay := 1, mode := Mode.mobile,
          useChrome := false, quality := 80 }
        ["a"] (fun _ _ => AttemptEvent.clean))[i]? = some Phase.setup → i = 0) ∧
    (∃ n, (generateTrace
        { csvFile := "q.csv", output := "out", column := none,
          engine := Engine.yahoo, delay := 1, mode := Mode.mobile,
          useChrome := false, quality := 80 }
        ["a"] (fun _ _ => AttemptEvent.clean))[n]? = some Phase.closeContext ∧
      ∀ (j : Nat) (rs : List (Nat × String × RunResult)),
        (generateTrace
            { csvFile := "q.csv", output := "out", column := none,
              engine := Engine.yahoo, delay := 1, mode := Mode.mobile,
              useChrome := false, quality := 80 }
            ["a"] (fun _ _ => AttemptEvent.clean))[j]? = some (Phase.processing rs) →
          0 < j ∧ j < n) ∧
    ((Phase.closeBrowser ∈ generateTrace
        { csvFile := "q.csv", output := "out", column := none,
          engine := Engine.yahoo, delay := 1, mode := Mode.mobile,
          useChrome := false, quality := 80 }
        ["a"] (fun _ _ => AttemptEvent.clean)) ↔ false = false) := by
  have := c5_session_lifecycle
    { csvFile := "q.csv", output := "out", column := none,
      engine := Engine.yahoo, delay := 1, mode := Mode.mobile,
      useChrome := false, quality := 80 }
    ["a"] (fun _ _ => AttemptEvent.clean) (fun _ _ hh => by cases hh)
  exact this

/-! ### Claim C4: compare mode -/

/-- The run-directory name determines its last five characters from the
engine alone: the timestamp cannot reach them. -/
theorem revTake5_runDirName (t : String) (e : Engine) :
    revTake5 (runDirName t e) = ("--" ++ engineName e).data.reverse.take 5 := by
  have hassoc : runDirName t e = t ++ ("--" ++ engineName e) := by
    rw [runDirName, String.append_assoc]
  rw [hassoc, revTake5, String.data_append, List.reverse_append]
  rw [List.take_append_of_le_length]
  rw [List.length_reverse, String.data_append, List.length_append]
  cases e <;> simp [engineName]

/-- Directory names of a yahoo pass and a non-yahoo pass differ, whatever
the two timestamps are. -/
theorem runDirName_yahoo_ne (t₁ t₂ : String) (e : Engine) (he : e ≠ Engine.yahoo) :
    runDirName t₁ Engine.yahoo ≠ runDirName t₂ e := by
  intro heq
  have h5 := congrArg revTake5 heq
  rw [revTake5_runDirName, revTake5_runDirName] at h5
  cases e with
  | google => exact absurd h5 (by decide)
  | bing => exact absurd h5 (by decide)
  | duckduckgo => exact absurd h5 (by decide)
  | yahoo => exact he rfl

/-- C4 (counterexample): the claim says the user's `useChrome` preference
is honored for the second pass, but for a non-google comparison engine
the code forces it off: with `engine = bing, useChrome = true`, both
passes run with `useChrome = false`. -/
theorem c4_compare_mode_counterexample :
    ({ csvFile := "q.csv", output := "out", column := none,
       engine := Engine.bing, delay := 1, mode := Mode.mobile,
       useChrome := true, quality := 80 } : Args).useChrome = true ∧
    (runCompareModePasses
        { csvFile := "q.csv", output := "out", column := none,
          engine := Engine.bing, delay := 1, mode := Mode.mobile,
          useChrome := true, quality := 80 }).map (fun a => a.useChrome) =
      [false, false] ∧
    (runCompareModePasses
        { csvFile := "q.csv", output := "out", column := none,
          engine := Engine.bing, delay := 1, mode := Mode.mobile,
          useChrome := true, quality := 80 }).map (fun a => a.engine) =
      [Engine.yahoo, Engine.bing] := by
  refine ⟨rfl, rfl, rfl⟩

/-- C4 (amended): compare mode makes exactly two passes, in order (the
second `generateSearchScreenshots` call is awaited only after the first
resolves, so they never run concurrently): the first always with
`engine = yahoo` and `useChrome = false` (headless regardless of the
requested mode) and all other settings unchanged; the second against the
comparison engine - the requested engine, or google when yahoo itself was
requested - with the user's `useChrome` preference honored only when that
comparison engine is google and forced off otherwise. Whatever timestamps
the two passes draw, their run directories differ (the comparison engine
is never yahoo, and the directory name ends in the engine name). -/
theorem c4_compare_mode (args : Args) :
    (runCompareModePasses args).length = 2 ∧
    (runCompareModePasses args)[0]? =
      some { args with engine := Engine.yahoo, useChrome := false } ∧
    (∃ ce, ce = (if args.engine == Engine.yahoo then Engine.google else args.engine) ∧
      ce ≠ Engine.yahoo ∧
      (runCompareModePasses args)[1]? =
        some { args with
                engine := ce,
                useChrome := (if ce == Engine.google then args.useChrome else false) } ∧
      ∀ t₁ t₂ : String, runDirName t₁ Engine.yahoo ≠ runDirName t₂ ce) := by
  refine ⟨rfl, rfl, ?_⟩
  refine ⟨(if args.engine == Engine.yahoo then Engine.google else args.engine),
    rfl, ?_, rfl, ?_⟩
  · cases he : args.engine <;> simp [he]
  · intro t₁ t₂
    apply runDirName_yahoo_ne
    cases he : args.engine <;> simp [he]

/-- C4 witness: the amended theorem applied at a concrete argument set
(`engine = google, useChrome = true`): two passes, and the two run
directories differ even with identical timestamps. -/
theorem c4_compare_mode_witness :
    (runCompareModePasses
        { csvFile := "q.csv", output := "out", column := none,
          engine := Engine.google, delay := 1, mode := Mode.mobile,
          useChrome := true, quality := 80 }).length = 2 ∧
    runDirName "2025-01-01-000000" Engine.yahoo ≠
      runDirName "2025-01-01-000000" Engine.google := by
  obtain ⟨h1, _, ce, hce, _, _, hdir⟩ := c4_compare_mode
    { csvFile := "q.csv", output := "out", column := none,
      engine := Engine.google, delay := 1, mode := Mode.mobile,
      useChrome := true, quality := 80 }
  have hceg : ce = Engine.google := by
    rw [hce]
    rfl
  exact ⟨h1, hceg ▸ hdir "2025-01-01-000000" "2025-01-01-000000"⟩

end SearchScreenshot
